import Mathlib

/-!
Verification of the `system-tray` event-loop multiplexer (the `src/stream`
module: `stream_loop.rs`, `future.rs`, `handle.rs`, `waker.rs`, `client.rs`),
the property-change decoder (`src/handle.rs`, `src/client/calloop_channel.rs`)
and the address parser (`src/handle.rs`, `src/client/mod.rs`).

The Rust code is shallowly embedded as executable Lean definitions.
Asynchronous operations (bus round-trips inside `async` blocks, stream
yields) are external I/O; they are embedded as oracle scripts:

* a stream is represented by the list of `Ready` yields it will produce
  before reporting `Pending` (a `some` yield is an element, a `none` yield
  is end-of-stream), exactly what `loop_until_pending` collects;
* a one-shot future in the `FutureMap` slab is represented by `Fut`:
  the number of polls that return `Pending` before it completes, and the
  `Option LoopEvent` it resolves to;
* where a stream element itself triggers the construction of a new future
  (a property-change signal triggers `to_update_item_event`, a layout
  signal triggers `to_layout_update_event`, a `NameOwnerChanged` record
  triggers the removal-finalization future, a registration triggers the
  bring-up future), the stream element is represented directly by the
  oracle script `Fut` of the future it will trigger.

Panics in the Rust code (`unwrap`, `expect`, out-of-bounds indexing) are
modelled by the `RunErr.crash` error of the interpreter; the interpreter
also carries fuel to make the mutual recursion of `process_by_loop`,
`new_item_added` and `handle_remove_item` well-founded, `RunErr.fuelOut`
marks fuel exhaustion and never occurs in any theorem below.
Event payloads (item snapshots, menu trees) do not affect any claim about
the loop and are abstracted from loop-level events; the decoder-level
`UpdateEvent` keeps its payload shape.
-/

/-- Public event of the stream module (`src/event.rs`), with payloads
abstracted: `Add(String, Box<StatusNotifierItem>)`,
`Update(String, UpdateEvent)`, `Remove(String)`. -/
inductive Event where
  | Add (destination : String)
  | Update (destination : String)
  | Remove (destination : String)
deriving Repr, DecidableEq

/-- The `destination` accessor used by `LoopEvent::process_by_loop`. -/
def Event.destination : Event → String
  | .Add d => d
  | .Update d => d
  | .Remove d => d

/-- Wake source of an item (`src/stream/waker.rs`, `ItemWakeFrom`). -/
inductive ItemWakeFrom where
  | Disconnect
  | PropertyChange
  | LayoutUpdate
deriving Repr, DecidableEq

/-- Wake source of the loop (`src/stream/waker.rs`, `WakeFrom`).
The `Token` is its destination string. -/
inductive WakeFrom where
  | NewItem
  | FutureEvent (index : Nat)
  | ItemUpdate (token : String) (item_wake_from : ItemWakeFrom)
deriving Repr, DecidableEq

mutual

/-- An in-flight one-shot future of the slab
(`Pin<Box<dyn Future<Output = Option<LoopEvent>>>>`), embedded as an
oracle script: `pend` polls return `Pending`, then it resolves to
`result`. -/
inductive Fut where
  | mk (pend : Nat) (result : Option LoopEvent)

/-- Internal loop event (`src/stream/future.rs`, `LoopEvent`), with
`LoopEventAddInner` inlined: `Init(Vec<String>)`,
`Add(events, token, item)`, `Remove(Event)`, `Updata(Event)`. -/
inductive LoopEvent where
  | Init (addrs : List String)
  | Add (events : List Event) (token : String) (item : Item)
  | Remove (event : Event)
  | Updata (event : Event)

/-- A tracked item (`src/stream/stream_loop.rs`, `Item`).
`dbus_menu_proxy` records only the presence of the proxy; the three
subscriptions are stream scripts whose elements are the futures the
drained records trigger (see the module comment). -/
inductive Item where
  | mk (dbus_menu_proxy : Bool)
       (disconnect_stream : List (Option Fut))
       (property_change_stream : List (Option Fut))
       (layout_updated_stream : Option (List (Option Fut)))

end

def Fut.pend : Fut → Nat
  | .mk p _ => p

def Fut.result : Fut → Option LoopEvent
  | .mk _ r => r

/-- One poll of a slab future: `inl r` is `Poll::Ready(r)`, `inr f` is
`Poll::Pending` with the future's remaining script. -/
def Fut.poll : Fut → Option LoopEvent ⊕ Fut
  | .mk 0 r => .inl r
  | .mk (p + 1) r => .inr (.mk p r)

def Item.dbus_menu_proxy : Item → Bool
  | .mk m _ _ _ => m

def Item.disconnect_stream : Item → List (Option Fut)
  | .mk _ d _ _ => d

def Item.property_change_stream : Item → List (Option Fut)
  | .mk _ _ p _ => p

def Item.layout_updated_stream : Item → Option (List (Option Fut))
  | .mk _ _ _ l => l

/-- Replace the disconnect stream (the drained stream is left empty). -/
def Item.withDisconnect : Item → List (Option Fut) → Item
  | .mk m _ p l, d => .mk m d p l

/-- Replace the property-change stream. -/
def Item.withPropertyChange : Item → List (Option Fut) → Item
  | .mk m d _ l, p => .mk m d p l

/-- Replace the layout-updated stream. -/
def Item.withLayoutUpdated : Item → Option (List (Option Fut)) → Item
  | .mk m d p _, l => .mk m d p l

/-- The slab of in-flight futures (`FutureMap` in
`src/stream/stream_loop.rs`; the copy in `src/stream/future.rs` has the
same `preserve_space`, `get` and `try_put` and additionally `try_poll`). -/
structure FutureMap where
  map : List (Option Fut)

/-- Rust `FutureMap::preserve_space`: index of the first free slot, growing the
backing vector by one `None` when every slot is occupied. -/
def FutureMap.preserve_space (fm : FutureMap) : Nat × FutureMap :=
  match fm.map.findIdx? (fun f => f.isNone) with
  | some i => (i, fm)
  | none => (fm.map.length, ⟨fm.map ++ [none]⟩)

/-- Store `f` at slot `index` (the slot exists by construction). -/
def FutureMap.setSlot (fm : FutureMap) (index : Nat) (f : Option Fut) : FutureMap :=
  ⟨fm.map.set index f⟩

/-- Rust `FutureMap::try_put`: reserve a slot, poll the future once with a
`FutureEvent(index)` waker (waker registration is an environment action
and is not part of the value-level state); if it completes synchronously
the slot stays free and the resolved event is returned, otherwise the
future is parked in the slot. -/
def FutureMap.try_put (fm : FutureMap) (fut : Fut) : Option LoopEvent × FutureMap :=
  let (index, fm') := fm.preserve_space
  match fut.poll with
  | .inl e => (e, fm')
  | .inr fut' => (none, fm'.setSlot index (some fut'))

/-- Rust `FutureMap::try_poll` (`src/stream/future.rs:111`): take the future
out of the slot, poll it, park it again on `Pending`.  An empty slot
yields no event; an out-of-bounds index panics in `get`
(`&mut self.map[index]`), modelled by the outer `none`.
Note: `LoopInner::wake_from` does not call this function; it inlines
`fut_place.take().unwrap()` instead (see `wake_from` below). -/
def FutureMap.try_poll (fm : FutureMap) (index : Nat) :
    Option (Option LoopEvent × FutureMap) :=
  match fm.map[index]? with
  | none => none
  | some none => some (none, fm)
  | some (some fut) =>
    match fut.poll with
    | .inl e => some (e, fm.setSlot index none)
    | .inr fut' => some (none, fm.setSlot index (some fut'))

/-- Interpreter errors: `crash` models a Rust panic (`unwrap`, `expect`,
out-of-bounds indexing), `fuelOut` models fuel exhaustion of the
interpreter (never reached in the theorems below). -/
inductive RunErr where
  | crash
  | fuelOut
deriving Repr, DecidableEq

/-- Rust `loop_until_pending` (`src/stream/stream_loop.rs:355`): poll the
stream until it reports `Pending`, collecting every yield.  On the script
embedding this returns the whole script and leaves the stream empty. -/
def loop_until_pending (st : List (Option α)) : List (Option α) × List (Option α) :=
  (st, [])

/-- Rust `Item::poll_disconnect`: drain the name-owner-changed stream
(`loop_until_pending` then `.flatten()`), registering an
`ItemUpdate{token, Disconnect}` waker (an environment action).  Each
record is represented by the finalization future that
`handle_remove_item` will build from it. -/
def Item.poll_disconnect (it : Item) : List Fut × Item :=
  let (outputs, rest) := loop_until_pending it.disconnect_stream
  (outputs.filterMap id, it.withDisconnect rest)

/-- Rust `Item::poll_property_change`: drain the raw signal stream and
`filter_map` each signal through `FutureMap::try_put` of its
`to_update_item_event` refetch future, collecting the synchronously
resolved events. -/
def Item.poll_property_change (it : Item) (fm : FutureMap) :
    List LoopEvent × Item × FutureMap :=
  let (outputs, rest) := loop_until_pending it.property_change_stream
  let (evs, fm') := (outputs.filterMap id).foldl
    (fun (acc : List LoopEvent × FutureMap) fut =>
      match acc.2.try_put fut with
      | (some e, fm') => (acc.1 ++ [e], fm')
      | (none, fm') => (acc.1, fm'))
    ([], fm)
  (evs, it.withPropertyChange rest, fm')

/-- Rust `Item::poll_layout_change`: when no layout-updated stream exists the
operation is `unwrap_or_default()` of a `None`: no events, slab and item
untouched.  Otherwise each drained signal clones
`dbus_menu_proxy.unwrap()` (a panic when the proxy is absent, modelled by
`RunErr.crash`) and `try_put`s the `to_layout_update_event` refetch
future. -/
def Item.poll_layout_change (it : Item) (fm : FutureMap) :
    Except RunErr (List LoopEvent × Item × FutureMap) :=
  match it.layout_updated_stream with
  | none => .ok ([], it, fm)
  | some st =>
    let (outputs, rest) := loop_until_pending st
    let step := fun (acc : List LoopEvent × FutureMap) (fut : Fut) =>
      if it.dbus_menu_proxy then
        match acc.2.try_put fut with
        | (some e, fm') => Except.ok (acc.1 ++ [e], fm')
        | (none, fm') => Except.ok (acc.1, fm')
      else Except.error RunErr.crash
    match (outputs.filterMap id).foldlM step ([], fm) with
    | .ok (evs, fm') => .ok (evs, it.withLayoutUpdated (some rest), fm')
    | .error e => .error e

/-- The loop state (`LoopInner`, `src/stream/stream_loop.rs:180`):
`ternimated` [sic] and `polled` flags, the slab, the registration stream
(each yield represented by the bring-up future it triggers), the items
map (association list standing for the `HashMap`), and the ready-set of
the shared `WakerData` (its `root_waker` is an environment object).
`bringup` is the environment oracle giving, for an address of an
`Init` list, the `to_new_item_event` bring-up future. -/
structure LoopState where
  ternimated : Bool
  polled : Bool
  futures : FutureMap
  watcher_stream : List (Option Fut)
  items : List (String × Item)
  ready_tokens : List WakeFrom
  bringup : String → Fut

/-- Rust `HashMap::get` on the items map. -/
def lookupItem (items : List (String × Item)) (d : String) : Option Item :=
  (items.find? (fun p => p.1 = d)).map Prod.snd

/-- Rust `HashMap::insert` on the items map (replaces any previous binding). -/
def insertItem (items : List (String × Item)) (d : String) (it : Item) :
    List (String × Item) :=
  (d, it) :: items.filter (fun p => p.1 ≠ d)

/-- Rust `HashMap::remove` on the items map (`LoopInner::item_removed`). -/
def eraseItem (items : List (String × Item)) (d : String) : List (String × Item) :=
  items.filter (fun p => p.1 ≠ d)

/-- Phase one of `LoopInner::first_poll`
(`src/stream/stream_loop.rs:254-264`): poll every tracked item's three
sources in map order, collecting for each the drained disconnect
records and the synchronously resolved property and layout events;
items are mutated in place and the slab is threaded through. -/
def first_poll_collect :
    List (String × Item) → FutureMap →
    Except RunErr
      (List (String × Item) ×
       List (String × List Fut × List LoopEvent × List LoopEvent) ×
       FutureMap)
  | [], fm => .ok ([], [], fm)
  | (tok, it) :: rest, fm =>
    let (dis, it1) := it.poll_disconnect
    let (prop, it2, fm1) := it1.poll_property_change fm
    match it2.poll_layout_change fm1 with
    | .error e => .error e
    | .ok (layout, it3, fm2) =>
      match first_poll_collect rest fm2 with
      | .error e => .error e
      | .ok (items', tuples, fm3) =>
        .ok ((tok, it3) :: items', (tok, dis, prop, layout) :: tuples, fm3)

/-- Result of one top-level poll of the `Stream` implementation:
`Ready(None)`, `Ready(Some(events))`, or `Pending`. -/
inductive PollOut where
  | readyNone
  | readySome (events : List Event)
  | pending
deriving Repr, DecidableEq

mutual

/-- Rust `LoopEvent::process_by_loop` (`src/stream/future.rs:32-61`):
`Add` inserts and arms the new item via `wrap_new_item_added`;
`Remove` deletes the item from the map and emits the event; `Updata`
emits the event unconditionally; `Init` enqueues one bring-up future
per address via `try_put`, processing any that resolve synchronously. -/
def process_by_loop (fuel : Nat) (e : LoopEvent) (s : LoopState) :
    Except RunErr (List Event × LoopState) :=
  match fuel with
  | 0 => .error .fuelOut
  | n + 1 =>
    match e with
    | .Add events token item => wrap_new_item_added n events token item s
    | .Remove event =>
      .ok ([event], { s with items := eraseItem s.items event.destination })
    | .Updata event => .ok ([event], s)
    | .Init addrs => init_puts n addrs s

/-- The `flat_map(|e| e.process_by_loop(self))` folds. -/
def process_events (fuel : Nat) (es : List LoopEvent) (s : LoopState) :
    Except RunErr (List Event × LoopState) :=
  match fuel with
  | 0 => .error .fuelOut
  | n + 1 =>
    match es with
    | [] => .ok ([], s)
    | e :: rest => do
      let (es1, s1) ← process_by_loop n e s
      let (es2, s2) ← process_events n rest s1
      .ok (es1 ++ es2, s2)

/-- The `Init` branch of `process_by_loop`: for each address, `try_put`
the `to_new_item_event` bring-up future obtained from the environment
oracle and process the synchronously resolved events. -/
def init_puts (fuel : Nat) (addrs : List String) (s : LoopState) :
    Except RunErr (List Event × LoopState) :=
  match fuel with
  | 0 => .error .fuelOut
  | n + 1 =>
    match addrs with
    | [] => .ok ([], s)
    | a :: rest =>
      let (e?, fm') := s.futures.try_put (s.bringup a)
      let s1 := { s with futures := fm' }
      match e? with
      | some le => do
        let (es1, s2) ← process_by_loop n le s1
        let (es2, s3) ← init_puts n rest s2
        .ok (es1 ++ es2, s3)
      | none => init_puts n rest s1

/-- Rust `LoopInner::wrap_new_item_added` (`src/stream/handle.rs:128-137`):
the bundle's events first, then the events produced by arming. -/
def wrap_new_item_added (fuel : Nat) (events : List Event) (token : String)
    (item : Item) (s : LoopState) : Except RunErr (List Event × LoopState) :=
  match fuel with
  | 0 => .error .fuelOut
  | n + 1 =>
    match new_item_added n token item s with
    | .ok (es, s') => .ok (events ++ es, s')
    | .error e => .error e

/-- Rust `LoopInner::new_item_added` (`src/stream/handle.rs:139-182`): arm the
three sources of the new item by draining them once (property change,
then layout, then disconnect), insert the item into the map, then run
`handle_remove_item` on any disconnect records already drained. -/
def new_item_added (fuel : Nat) (token : String) (item : Item) (s : LoopState) :
    Except RunErr (List Event × LoopState) :=
  match fuel with
  | 0 => .error .fuelOut
  | n + 1 =>
    let (propEvs, item1, fm1) := item.poll_property_change s.futures
    let s1 := { s with futures := fm1 }
    match process_events n propEvs s1 with
    | .error e => .error e
    | .ok (es1, s2) =>
      match item1.poll_layout_change s2.futures with
      | .error e => .error e
      | .ok (layoutEvs, item2, fm2) =>
        match process_events n layoutEvs { s2 with futures := fm2 } with
        | .error e => .error e
        | .ok (es2, s4) =>
          let (recs, item3) := item2.poll_disconnect
          let s5 := { s4 with items := insertItem s4.items token item3 }
          match remove_items n token recs s5 with
          | .error e => .error e
          | .ok (es3, s6) => .ok (es1 ++ es2 ++ es3, s6)

/-- Rust `LoopInner::handle_remove_item` (`src/stream/handle.rs:184-224`):
`try_put` the removal-finalization future built from the record and
process it when it resolves synchronously.  The future's own behaviour
(the `old = destination, new = none` test, the best-effort unregister)
is the record's oracle script; `remove_finalization` below models its
body. -/
def handle_remove_item (fuel : Nat) (_token : String) (fut : Fut)
    (s : LoopState) : Except RunErr (List Event × LoopState) :=
  match fuel with
  | 0 => .error .fuelOut
  | n + 1 =>
    let (e?, fm') := s.futures.try_put fut
    let s1 := { s with futures := fm' }
    match e? with
    | some le => process_by_loop n le s1
    | none => .ok ([], s1)

/-- The `flat_map(|d| self.handle_remove_item(&token, d))` folds. -/
def remove_items (fuel : Nat) (token : String) (recs : List Fut)
    (s : LoopState) : Except RunErr (List Event × LoopState) :=
  match fuel with
  | 0 => .error .fuelOut
  | n + 1 =>
    match recs with
    | [] => .ok ([], s)
    | r :: rest => do
      let (es1, s1) ← handle_remove_item n token r s
      let (es2, s2) ← remove_items n token rest s1
      .ok (es1 ++ es2, s2)

/-- Rust `LoopInner::handle_new_item` (`src/stream/handle.rs:107-126`):
`try_put` the bring-up future of a drained registration and process it
when it resolves synchronously. -/
def handle_new_item (fuel : Nat) (fut : Fut) (s : LoopState) :
    Except RunErr (List Event × LoopState) :=
  match fuel with
  | 0 => .error .fuelOut
  | n + 1 =>
    let (e?, fm') := s.futures.try_put fut
    let s1 := { s with futures := fm' }
    match e? with
    | some le => process_by_loop n le s1
    | none => .ok ([], s1)

/-- The `flat_map(|item| self.handle_new_item(item))` folds. -/
def new_item_futs (fuel : Nat) (futs : List Fut) (s : LoopState) :
    Except RunErr (List Event × LoopState) :=
  match fuel with
  | 0 => .error .fuelOut
  | n + 1 =>
    match futs with
    | [] => .ok ([], s)
    | f :: rest => do
      let (es1, s1) ← handle_new_item n f s
      let (es2, s2) ← new_item_futs n rest s1
      .ok (es1 ++ es2, s2)

/-- Rust `LoopInner::poll_item_stream` (`src/stream/stream_loop.rs:340-352`):
drain the registration stream with a `NewItem` waker and handle each
registration.  The `.flatten()` discards any `none` yield — an
end-of-stream of the registration stream is dropped here and the
`ternimated` flag is never written by this function. -/
def poll_item_stream (fuel : Nat) (s : LoopState) :
    Except RunErr (List Event × LoopState) :=
  match fuel with
  | 0 => .error .fuelOut
  | n + 1 =>
    let (outputs, rest) := loop_until_pending s.watcher_stream
    let s1 := { s with watcher_stream := rest }
    new_item_futs n (outputs.filterMap id) s1

/-- Rust `LoopInner::wake_from` (`src/stream/stream_loop.rs:293-338`).
`FutureEvent(index)` does `self.futures.get(index)` (an out-of-bounds
index panics) followed by `.take().unwrap()` (an empty slot panics);
`ItemUpdate` does `self.items.get_mut(&token).unwrap()` (an untracked
token panics).  Both panics are `RunErr.crash`. -/
def wake_from (fuel : Nat) (w : WakeFrom) (s : LoopState) :
    Except RunErr (List Event × LoopState) :=
  match fuel with
  | 0 => .error .fuelOut
  | n + 1 =>
    match w with
    | .NewItem => poll_item_stream n s
    | .FutureEvent index =>
      match s.futures.map[index]? with
      | none => .error .crash
      | some none => .error .crash
      | some (some fut) =>
        let s1 := { s with futures := s.futures.setSlot index none }
        match fut.poll with
        | .inl e =>
          match e with
          | some ev => process_by_loop n ev s1
          | none => .ok ([], s1)
        | .inr fut' =>
          .ok ([], { s1 with futures := s1.futures.setSlot index (some fut') })
    | .ItemUpdate token item_wake_from =>
      match lookupItem s.items token with
      | none => .error .crash
      | some item =>
        match item_wake_from with
        | .Disconnect =>
          let (recs, item') := item.poll_disconnect
          remove_items n token recs
            { s with items := insertItem s.items token item' }
        | .PropertyChange =>
          let (evs, item', fm') := item.poll_property_change s.futures
          process_events n evs
            { s with items := insertItem s.items token item', futures := fm' }
        | .LayoutUpdate =>
          match item.poll_layout_change s.futures with
          | .error e => .error e
          | .ok (evs, item', fm') =>
            process_events n evs
              { s with items := insertItem s.items token item', futures := fm' }

/-- Phase two of `first_poll` (`src/stream/stream_loop.rs:266-287`):
for each collected tuple, finalize the disconnect records, then process
the property events, then the layout events. -/
def first_poll_dispatch (fuel : Nat)
    (tuples : List (String × List Fut × List LoopEvent × List LoopEvent))
    (s : LoopState) : Except RunErr (List Event × LoopState) :=
  match fuel with
  | 0 => .error .fuelOut
  | n + 1 =>
    match tuples with
    | [] => .ok ([], s)
    | (tok, dis, prop, layout) :: rest => do
      let (es1, s1) ← remove_items n tok dis s
      let (es2, s2) ← process_events n prop s1
      let (es3, s3) ← process_events n layout s2
      let (es4, s4) ← first_poll_dispatch n rest s3
      .ok (es1 ++ es2 ++ es3 ++ es4, s4)

/-- Rust `LoopInner::first_poll` (`src/stream/stream_loop.rs:250-292`): poll
every tracked item's sources, dispatch the results, then poll the
registration stream once.  No slab slot is drained here: the function
never touches `self.futures` except through the items' own drains. -/
def first_poll (fuel : Nat) (s : LoopState) :
    Except RunErr (List Event × LoopState) :=
  match fuel with
  | 0 => .error .fuelOut
  | n + 1 =>
    match first_poll_collect s.items s.futures with
    | .error e => .error e
    | .ok (items', tuples, fm') => do
      let s1 := { s with items := items', futures := fm' }
      let (es1, s2) ← first_poll_dispatch n tuples s1
      let (es2, s3) ← poll_item_stream n s2
      .ok (es1 ++ es2, s3)

/-- Rust `<LoopInner as Stream>::poll_next` (`src/stream/stream_loop.rs:214-247`):
on the first poll install the waker data and run `first_poll`; otherwise
drain the queued wake sources and dispatch each through `wake_from`
(value-level behaviour; the Rust code performs this drain while holding
the ready-set mutex, see `poll_next_drain_trace` below).  Afterwards:
`Ready(None)` if `ternimated`, `Pending` on an empty batch, else
`Ready(Some(batch))`. -/
def poll_next (fuel : Nat) (s : LoopState) :
    Except RunErr (PollOut × LoopState) :=
  match fuel with
  | 0 => .error .fuelOut
  | n + 1 => do
    let (ready_events, s') ←
      if s.polled = false then
        first_poll n { s with polled := true }
      else
        wake_fold n s.ready_tokens { s with ready_tokens := [] }
    if s'.ternimated then .ok (.readyNone, s')
    else if ready_events.isEmpty then .ok (.pending, s')
    else .ok (.readySome ready_events, s')

/-- The `ready_tokens.drain(..).flat_map(|f| self.wake_from(f))` fold. -/
def wake_fold (fuel : Nat) (ws : List WakeFrom) (s : LoopState) :
    Except RunErr (List Event × LoopState) :=
  match fuel with
  | 0 => .error .fuelOut
  | n + 1 =>
    match ws with
    | [] => .ok ([], s)
    | w :: rest => do
      let (es1, s1) ← wake_from n w s
      let (es2, s2) ← wake_fold n rest s1
      .ok (es1 ++ es2, s2)

end

/-- Rust `Client::create_stream` (`src/stream/client.rs:69-130`): after the
bus bring-up it returns `LoopInner::new(connection, stream,
HashMap::new())` — fresh flags, an empty `FutureMap` and an empty items
map.  The fetch of `RegisteredStatusNotifierItems` at the end of the
function is commented out in the source; no initial future is armed. -/
def create_stream (watcher_stream : List (Option Fut))
    (bringup : String → Fut) : LoopState :=
  { ternimated := false
    polled := false
    futures := ⟨[]⟩
    watcher_stream := watcher_stream
    items := []
    ready_tokens := []
    bringup := bringup }

/-! ### Locking discipline of the non-first poll (claim C6) -/

/-- Atomic actions of the non-first branch of `poll_next` with respect to
the ready-set mutex, in program order. -/
inductive LockAction where
  | lock
  | setRootWaker
  | dispatch (w : WakeFrom)
  | unlock
deriving Repr, DecidableEq

/-- Control-flow trace of the non-first branch of `poll_next`
(`src/stream/stream_loop.rs:228-237`): the code locks the ready-set
mutex (`data.lock().unwrap()`), refreshes `root_waker`, and then runs
`ready_tokens.drain(..).flat_map(|f| self.wake_from(f)).collect()` as
the tail expression of the same block — the `MutexGuard` is dropped only
after `collect` finishes, so every `wake_from` dispatch executes between
the lock and the unlock.  There is no swap-out of the queue. -/
def poll_next_drain_trace (queued : List WakeFrom) : List LockAction :=
  [LockAction.lock, LockAction.setRootWaker] ++
    queued.map LockAction.dispatch ++ [LockAction.unlock]

/-- Whether some dispatch action of a trace occurs while the mutex is
held (fold state: seen-a-locked-dispatch flag, currently-locked flag). -/
def dispatchWhileLocked (tr : List LockAction) : Bool :=
  (tr.foldl
    (fun (acc : Bool × Bool) a =>
      match a with
      | .lock => (acc.1, true)
      | .unlock => (acc.1, false)
      | .dispatch _ => (acc.1 || acc.2, acc.2)
      | .setRootWaker => acc)
    (false, false)).1

/-! ### The removal-finalization future (claim C7) -/

/-- A `NameOwnerChanged` record as consumed by the finalization future:
`parse_ok` is the outcome of `n.args()`, the owner fields are the parsed
arguments. -/
structure NameOwnerChanged where
  parse_ok : Bool
  old_owner : Option String
  new_owner : Option String

/-- Outcomes of the two bus calls made by the finalization future:
`proxy_ok` for `StatusNotifierWatcherProxy::new`, `unregister_ok` for
`unregister_status_notifier_item`. -/
structure RemoveEnv where
  proxy_ok : Bool
  unregister_ok : Bool

/-- Body of the removal-finalization future built by
`LoopInner::handle_remove_item` (`src/stream/handle.rs:192-218`).
The outer `none` models a panic: a parse failure hits
`.ok().unwrap()` and a proxy-construction failure hits
`.expect("Failed to open StatusNotifierWatcherProxy")`.  The result of
the unregister call (`env.unregister_ok`) is deliberately never read:
its error is only logged, and `Remove` is returned regardless. -/
def remove_finalization (destination : String) (n : NameOwnerChanged)
    (env : RemoveEnv) : Option (Option LoopEvent) :=
  if n.parse_ok = false then none
  else
    match n.old_owner, n.new_owner with
    | some old, none =>
      if old = destination then
        if env.proxy_ok = false then none
        else some (some (.Remove (.Remove destination)))
      else some none
    | _, _ => some none

/-! ### The property-change decoder (claim C8)

The decoder lives twice in the repository with the same normalization
table: `get_update_event` in `src/handle.rs:79-139` and
`Client::get_update_event` in `src/client/calloop_channel.rs:317-377`.
The value coercions call into `crate::dbus` and `crate::item`, which are
not under `src/`; those leaves are modelled from the spec. -/

/-- Modelled from the spec: the `item::Status` enum (`crate::item` is not
under `src/`) — "status → enum (string decoded, default on parse
failure)". -/
inductive StatusE where
  | parsed (s : String)
  | defaultStatus
deriving Repr, DecidableEq

/-- Modelled from the spec: a decoded tooltip (`crate::item::Tooltip` is
not under `src/`); only the success of `Tooltip::try_from` matters
here. -/
inductive TooltipE where
  | decoded
deriving Repr, DecidableEq

/-- Modelled from the spec: a D-Bus variant value as seen by the decoder
— string-typed, structure-typed (a tooltip, with the outcome of
`Tooltip::try_from`), or anything else. -/
inductive DValue where
  | str (s : String)
  | strct (tooltip_ok : Bool)
  | other
deriving Repr, DecidableEq

/-- Modelled from the spec: `OwnedValueExt::to_string(...).ok()`
(`crate::dbus`, not under `src/`) — "icon/title/attention/overlay →
optional string". -/
def DValue.to_string : DValue → Option String
  | .str s => some s
  | _ => none

/-- Rust `property.downcast_ref::<&str>().ok().map(Status::from)
.unwrap_or_default()`. -/
def statusFrom : DValue → StatusE
  | .str s => .parsed s
  | _ => .defaultStatus

/-- The decoder-level update event (`src/event.rs`, `UpdateEvent`),
restricted to the variants the property-change decoder can produce. -/
inductive UpdateEvent where
  | AttentionIcon (v : Option String)
  | Icon (v : Option String)
  | OverlayIcon (v : Option String)
  | Status (v : StatusE)
  | Title (v : Option String)
  | Tooltip (v : Option TooltipE)
deriving Repr, DecidableEq

/-- Signal-name normalization of `get_update_event`
(`src/handle.rs:86-94`; identically `src/client/calloop_channel.rs:324-332`):
the six known signals map through the table, every other name is
byte-sliced as `&member.as_str()["New".len()..]` unconditionally —
for a name shorter than three bytes the slice panics, modelled by
`none` (D-Bus member names are ASCII, so byte and character indexing
agree). -/
def property_name (member : String) : Option String :=
  match member with
  | "NewAttentionIcon" => some "AttentionIconName"
  | "NewIcon" => some "IconName"
  | "NewOverlayIcon" => some "OverlayIconName"
  | "NewStatus" => some "Status"
  | "NewTitle" => some "Title"
  | "NewToolTip" => some "ToolTip"
  | _ =>
    if 3 ≤ member.toList.length then some (String.mk (member.toList.drop 3))
    else none

/-- Rust `get_update_event` (`src/handle.rs:79-139`): normalize the
signal name, fetch that property (`fetch pname = none` is a fetch
error: logged, no event), then coerce by signal name; names outside the
six known ones fall to the `warn` arm and produce no event.  The outer
`none` models the byte-slice panic of `property_name`.  For `NewToolTip`
a property that is not a structure makes the `?` operator return `None`
(no event); a structure that fails `Tooltip::try_from` yields
`Tooltip(None)`. -/
def get_update_event (member : String) (fetch : String → Option DValue) :
    Option (Option UpdateEvent) :=
  match property_name member with
  | none => none
  | some pname =>
    match fetch pname with
    | none => some none
    | some property =>
      match member with
      | "NewAttentionIcon" => some (some (.AttentionIcon property.to_string))
      | "NewIcon" => some (some (.Icon property.to_string))
      | "NewOverlayIcon" => some (some (.OverlayIcon property.to_string))
      | "NewStatus" => some (some (.Status (statusFrom property)))
      | "NewTitle" => some (some (.Title property.to_string))
      | "NewToolTip" =>
        match property with
        | .strct ok => some (some (.Tooltip (if ok then some .decoded else none)))
        | _ => some none
      | _ => some none

/-! ### The address parser (claim C9) -/

/-- Rust `str::split_once` on a single separator character, on the
character-list representation: split at the first occurrence. -/
def splitOnceL (c : Char) : List Char → Option (List Char × List Char)
  | [] => none
  | x :: xs =>
    if x = c then some ([], xs)
    else
      match splitOnceL c xs with
      | none => none
      | some (a, b) => some (x :: a, b)

/-- Rust `parse_address` (`src/handle.rs:363-369`; identically
`src/client/mod.rs:22-28`): `address.split_once('/')`, defaulting to the
path `/StatusNotifierItem` when no slash is present, otherwise
re-prefixing the suffix with `/`. -/
def parse_address (address : String) : String × String :=
  match splitOnceL '/' address.toList with
  | none => (address, "/StatusNotifierItem")
  | some (d, p) => (String.mk d, String.mk ('/' :: p))

/-! ### Concrete states for the counterexample and failing-input runs -/

/-- A trivial bring-up oracle: every address resolves to nothing. -/
def env0 : String → Fut := fun _ => .mk 0 none

/-- A tracked item for destination `"D"`: no menu, a disconnect stream
holding one `NameOwnerChanged` record whose finalization future resolves
immediately to `Remove("D")`, no pending property signals, no layout
stream. -/
def itemD : Item :=
  .mk false [some (.mk 0 (some (.Remove (.Remove "D"))))] [] none

/-- Loop state for the C2 run: item `"D"` is tracked, an update-refetch
future for `"D"` is still in flight in slab slot 0, and the ready-set
holds the disconnect wake for `"D"` followed by the slot-0 future wake. -/
def c2state : LoopState :=
  { ternimated := false
    polled := true
    futures := ⟨[some (.mk 0 (some (.Updata (.Update "D"))))]⟩
    watcher_stream := []
    items := [("D", itemD)]
    ready_tokens := [.ItemUpdate "D" .Disconnect, .FutureEvent 0]
    bringup := env0 }

/-- Loop state for the C3 run: the ready-set holds an `ItemUpdate` wake
for destination `"D"` but no item for `"D"` is tracked (the race with
removal the spec describes). -/
def c3state : LoopState :=
  { ternimated := false
    polled := true
    futures := ⟨[]⟩
    watcher_stream := []
    items := []
    ready_tokens := [.ItemUpdate "D" .PropertyChange]
    bringup := env0 }

/-- Loop state for the C4 run: slab slot 0 holds a future that resolves
on its next poll, and the ready-set holds the duplicate wake
`FutureEvent(0), FutureEvent(0)`. -/
def c4state : LoopState :=
  { ternimated := false
    polled := true
    futures := ⟨[some (.mk 0 (some (.Updata (.Update "D"))))]⟩
    watcher_stream := []
    items := []
    ready_tokens := [.FutureEvent 0, .FutureEvent 0]
    bringup := env0 }

/-- Loop state for the C5 run: the registration stream yields
end-of-stream (`Ready(None)`) on its next drain, and the ready-set holds
the `NewItem` wake. -/
def c5state : LoopState :=
  { ternimated := false
    polled := true
    futures := ⟨[]⟩
    watcher_stream := [none]
    items := []
    ready_tokens := [.NewItem]
    bringup := env0 }

/-- The state left behind by the C5 run: the end-of-stream yield has
been drained and dropped, the ready-set is empty, and every flag —
`ternimated` included — is unchanged. -/
def c5after : LoopState :=
  { c5state with
    watcher_stream := []
    ready_tokens := [] }

/-- The state after the first top-level poll of a freshly created
stream: only the `polled` flag has changed. -/
def c1after : LoopState := { create_stream [] env0 with polled := true }

/-! ### Theorems -/

/-- Claim C2 (counterexample). Dispatching the queued wakes of `c2state`
— the disconnect of `"D"` followed by the still-in-flight refetch future
in slab slot 0 — makes one top-level poll emit
`[Remove("D"), Update("D")]`: an `Update` for `"D"` produced by a
refetch future that was in flight when `"D"` was removed is emitted
after `"D"`'s `Remove`, so the event sequence for `"D"` does not match
`Add · (Update)* · Remove?`. -/
theorem claim2_counterexample :
    (poll_next 9 c2state).map (fun r => r.1) =
      .ok (.readySome [Event.Remove "D", Event.Update "D"]) := rfl

/-- Claim C2 (amended): within `process_by_loop`, a `Remove` event for a
destination deletes that destination's item from the map and emits the
event, but an `Updata` event is passed through unconditionally — the
loop never checks whether the destination is still tracked, so updates
from refetch futures still in flight at removal are emitted after the
`Remove`. -/
theorem claim2_amended :
    (∀ (n : Nat) (ev : Event) (s : LoopState),
        process_by_loop (n + 1) (.Updata ev) s = .ok ([ev], s)) ∧
    (∀ (n : Nat) (ev : Event) (s : LoopState),
        process_by_loop (n + 1) (.Remove ev) s =
          .ok ([ev], { s with items := eraseItem s.items ev.destination })) :=
  ⟨fun _ _ _ => rfl, fun _ _ _ => rfl⟩

/-- Claim C3. Dispatching an `ItemUpdate{destination, kind}` wake whose
destination has no tracked item does not silently ignore the wake: the
`self.items.get_mut(&token).unwrap()` in `wake_from`
(`src/stream/stream_loop.rs:316`) panics. -/
theorem claim3_untracked_item_update_panics :
    poll_next 9 c3state = .error .crash := rfl

/-- Claim C4. Dispatching `FutureEvent(0)` a second time after the
slot-0 future completed earlier in the same drain panics at
`fut_place.take().unwrap()` (`src/stream/stream_loop.rs:299`) instead of
returning `Pending`; the duplicate-tolerant `FutureMap::try_poll` of
`src/stream/future.rs:111-130` (second conjunct: an empty slot yields no
event and leaves the slab unchanged) is not what `wake_from` calls. -/
theorem claim4_duplicate_future_event_panics :
    poll_next 9 c4state = .error .crash ∧
    FutureMap.try_poll ⟨[none]⟩ 0 = some (none, ⟨[none]⟩) :=
  ⟨rfl, rfl⟩

/-- Claim C5. When the registration stream yields end-of-stream, the
`.flatten()` in `poll_item_stream` discards the `None` and nothing ever
writes `ternimated`: the poll returns `Pending` with the flag still
`false`, instead of setting the flag and exhausting the stream. -/
theorem claim5_eos_does_not_terminate :
    poll_next 9 c5state = .ok (.pending, c5after) ∧ c5after.ternimated = false :=
  ⟨rfl, rfl⟩

/-- Claim C6. In the non-first branch of `poll_next` the queued sources
are dispatched through `wake_from` while the ready-set mutex guard is
still alive: the trace of a poll with a non-empty queue contains a
dispatch between the lock and the unlock. -/
theorem claim6_dispatch_under_mutex :
    dispatchWhileLocked (poll_next_drain_trace [WakeFrom.NewItem]) = true := rfl

/-- Claim C7 (counterexample). A removal finalization for a record with
`old = "D"`, `new = none` whose watcher-proxy construction fails does
not log and emit `Remove`: it panics
(`.expect("Failed to open StatusNotifierWatcherProxy")`,
`src/stream/handle.rs:205-207`). -/
theorem claim7_counterexample :
    remove_finalization "D" ⟨true, some "D", none⟩ ⟨false, true⟩ = none := rfl

/-- Claim C7 (amended): when the record parses and the watcher proxy
opens, a matching owner-lost record yields `Remove(destination)`
regardless of whether the `UnregisterStatusNotifierItem` call succeeds —
only that call is best-effort; parse and proxy-open failures panic. -/
theorem claim7_amended (d : String) (n : NameOwnerChanged) (env : RemoveEnv)
    (h1 : n.parse_ok = true) (h2 : env.proxy_ok = true)
    (h3 : n.old_owner = some d) (h4 : n.new_owner = none) :
    remove_finalization d n env = some (some (.Remove (.Remove d))) := by
  cases n
  cases env
  simp_all [remove_finalization]

/-- Witness for `claim7_amended`: the unregister call fails
(`unregister_ok = false`) and `Remove("D")` is still produced. -/
theorem claim7_witness :
    remove_finalization "D" ⟨true, some "D", none⟩ ⟨true, false⟩ =
      some (some (.Remove (.Remove "D"))) :=
  claim7_amended "D" ⟨true, some "D", none⟩ ⟨true, false⟩ rfl rfl rfl rfl

/-- Splitting never found the separator: the separator is not in the
list. -/
theorem splitOnceL_eq_none {c : Char} {l : List Char}
    (h : splitOnceL c l = none) : c ∉ l := by
  induction l with
  | nil => simp
  | cons x xs ih =>
    simp only [splitOnceL] at h
    by_cases hx : x = c
    · simp [hx] at h
    · cases hs : splitOnceL c xs with
      | none =>
        simp only [List.mem_cons, not_or]
        exact ⟨fun hc => hx hc.symm, ih hs⟩
      | some p => rw [hs, if_neg hx] at h; simp at h

/-- Splitting at the first separator occurrence after a separator-free
prefix. -/
theorem splitOnceL_of_not_mem {c : Char} {d : List Char} (p : List Char)
    (h : c ∉ d) : splitOnceL c (d ++ c :: p) = some (d, p) := by
  induction d with
  | nil => simp [splitOnceL]
  | cons x xs ih =>
    simp only [List.mem_cons, not_or] at h
    simp only [List.cons_append, splitOnceL, List.append_eq]
    rw [if_neg (fun hx => h.1 hx.symm), ih h.2]

/-- A successful split has a separator-free left part and reassembles to
the input. -/
theorem splitOnceL_eq_some {c : Char} {l a b : List Char}
    (h : splitOnceL c l = some (a, b)) : c ∉ a ∧ l = a ++ c :: b := by
  induction l generalizing a b with
  | nil => simp [splitOnceL] at h
  | cons x xs ih =>
    simp only [splitOnceL] at h
    by_cases hx : x = c
    · rw [if_pos hx] at h
      simp only [Option.some.injEq, Prod.mk.injEq] at h
      obtain ⟨h1, h2⟩ := h
      subst h1; subst h2; subst hx
      simp
    · rw [if_neg hx] at h
      cases hs : splitOnceL c xs with
      | none => rw [hs] at h; simp at h
      | some p =>
        obtain ⟨p1, p2⟩ := p
        rw [hs] at h
        simp only [Option.some.injEq, Prod.mk.injEq] at h
        obtain ⟨h1, h2⟩ := h
        obtain ⟨ihn, ihe⟩ := ih hs
        subst h2
        constructor
        · intro hc
          rw [← h1] at hc
          rcases List.mem_cons.mp hc with hc | hc
          · exact hx hc.symm
          · exact ihn hc
        · rw [← h1, ihe]; simp

/-- Binding an `Except` run that prepends an empty event list is the run
itself. -/
theorem bind_nil_append (x : Except RunErr (List Event × LoopState)) :
    (do
      let (es, s) ← x
      Except.ok (([] : List Event) ++ es, s)) = x := by
  cases x <;> rfl

/-- Claim C1 (counterexample). The loop state returned by
`create_stream` has an empty slab — no initial future calling
`RegisteredStatusNotifierItems` is armed in slot 0 (the fetch is
commented out at the end of `Client::create_stream`) — and the first
top-level poll finds nothing to drain: it returns `Pending`, having only
set the `polled` flag.  Items registered before the stream was created
therefore never produce an `Add` event. -/
theorem claim1_counterexample :
    (create_stream [] env0).futures.map = [] ∧
    poll_next 9 (create_stream [] env0) = .ok (.pending, c1after) :=
  ⟨rfl, rfl⟩

/-- Claim C1 (amended): `create_stream` arms no bootstrap future and
seeds no items, and on such a state `first_poll` reduces to a single
poll of the registration stream — slab slot 0 is never drained. -/
theorem claim1_amended (ws : List (Option Fut)) (env : String → Fut) (n : Nat) :
    (create_stream ws env).futures.map = [] ∧
    (create_stream ws env).items = [] ∧
    first_poll (n + 1) (create_stream ws env) =
      poll_item_stream n (create_stream ws env) := by
  refine ⟨rfl, rfl, ?_⟩
  cases n with
  | zero => rfl
  | succ m =>
    simp only [first_poll, first_poll_collect, first_poll_dispatch]
    exact bind_nil_append _

/-- Claim C8 (counterexample). A signal named `"Ab"` is not handled by
the decoder, yet it is not merely logged with no event: the
unconditional byte-slice `&member.as_str()["New".len()..]` panics on a
name shorter than three bytes. -/
theorem claim8_counterexample :
    get_update_event "Ab" (fun _ => none) = none := rfl

/-- Claim C8 (amended): the normalization table maps the six known
signals exactly as specified and any other `New<Rest>` to `<Rest>`; a
signal whose name is at least three bytes long and not among the six
known ones produces no event (it is only logged), whatever the fetched
value is.  (Names shorter than three bytes panic, see the
counterexample.) -/
theorem claim8_amended :
    property_name "NewAttentionIcon" = some "AttentionIconName" ∧
    property_name "NewIcon" = some "IconName" ∧
    property_name "NewOverlayIcon" = some "OverlayIconName" ∧
    property_name "NewStatus" = some "Status" ∧
    property_name "NewTitle" = some "Title" ∧
    property_name "NewToolTip" = some "ToolTip" ∧
    (∀ rest : String,
      "New" ++ rest ≠ "NewAttentionIcon" → "New" ++ rest ≠ "NewIcon" →
      "New" ++ rest ≠ "NewOverlayIcon" → "New" ++ rest ≠ "NewStatus" →
      "New" ++ rest ≠ "NewTitle" → "New" ++ rest ≠ "NewToolTip" →
      property_name ("New" ++ rest) = some rest) ∧
    (∀ (member : String) (fetch : String → Option DValue),
      member ≠ "NewAttentionIcon" → member ≠ "NewIcon" →
      member ≠ "NewOverlayIcon" → member ≠ "NewStatus" →
      member ≠ "NewTitle" → member ≠ "NewToolTip" →
      3 ≤ member.toList.length →
      get_update_event member fetch = some none) := by
  refine ⟨rfl, rfl, rfl, rfl, rfl, rfl, ?_, ?_⟩
  · intro rest h1 h2 h3 h4 h5 h6
    have ht : ("New" ++ rest).toList = 'N' :: 'e' :: 'w' :: rest.toList := by
      show ("New" ++ rest).data = _
      rw [String.data_append]
      rfl
    simp only [property_name, h1, h2, h3, h4, h5, h6, ht,
      List.length_cons, List.drop_succ_cons, List.drop_zero]
    rw [if_pos (by omega)]
    rfl
  · intro member fetch h1 h2 h3 h4 h5 h6 hlen
    have hp : property_name member = some (String.mk (member.toList.drop 3)) := by
      simp only [property_name, h1, h2, h3, h4, h5, h6]
      rw [if_pos hlen]
    simp only [get_update_event, hp, h1, h2, h3, h4, h5, h6]
    cases hf : fetch (String.mk (member.toList.drop 3)) with
    | none => rfl
    | some v => rfl

/-- Witness for `claim8_amended`: the unknown signal `NewFrobnicator`
normalizes to `Frobnicator` and produces no event. -/
theorem claim8_witness :
    property_name "NewFrobnicator" = some "Frobnicator" ∧
    get_update_event "NewFrobnicator" (fun _ => some DValue.other) = some none := by
  constructor
  · exact claim8_amended.2.2.2.2.2.2.1 "Frobnicator"
      (by decide) (by decide) (by decide) (by decide) (by decide) (by decide)
  · exact claim8_amended.2.2.2.2.2.2.2 "NewFrobnicator" (fun _ => some DValue.other)
      (by decide) (by decide) (by decide) (by decide) (by decide) (by decide) (by decide)

/-- Claim C9. `parse_address` maps `"dest/a/b/c"` to
`("dest", "/a/b/c")` and `"dest"` to `("dest", "/StatusNotifierItem")`,
and for every address, re-parsing the reassembly
`destination ++ path` returns the same canonical pair. -/
theorem claim9_parse_address_roundtrip :
    parse_address "dest/a/b/c" = ("dest", "/a/b/c") ∧
    parse_address "dest" = ("dest", "/StatusNotifierItem") ∧
    ∀ a : String,
      parse_address ((parse_address a).1 ++ (parse_address a).2) = parse_address a := by
  refine ⟨rfl, rfl, ?_⟩
  intro a
  cases h : splitOnceL '/' a.toList with
  | none =>
    have hna : '/' ∉ a.toList := splitOnceL_eq_none h
    simp only [parse_address, h]
    have ht : (a ++ "/StatusNotifierItem").toList =
        a.toList ++ '/' :: "StatusNotifierItem".toList := by
      show (a ++ "/StatusNotifierItem").data = _
      rw [String.data_append]
      rfl
    rw [ht, splitOnceL_of_not_mem _ hna]
    rfl
  | some dp =>
    obtain ⟨d0, p0⟩ := dp
    obtain ⟨hnd, _⟩ := splitOnceL_eq_some h
    simp only [parse_address, h]
    have ht : (String.mk d0 ++ String.mk ('/' :: p0)).toList = d0 ++ '/' :: p0 := by
      show (String.mk d0 ++ String.mk ('/' :: p0)).data = _
      rw [String.data_append]
    rw [ht, splitOnceL_of_not_mem _ hnd]

/-- Claim C10. For a tracked item without a layout-updated stream (no
menu path advertised), `poll_layout_change` is total: it returns the
empty event list, leaves the slab untouched, and cannot fail or panic
(`unwrap_or_default` of the `None` branch). -/
theorem claim10_no_layout_stream (it : Item) (fm : FutureMap)
    (h : it.layout_updated_stream = none) :
    it.poll_layout_change fm = .ok ([], it, fm) := by
  unfold Item.poll_layout_change
  rw [h]

/-- Witness for `claim10_no_layout_stream` at a concrete menu-less
item and an empty slab. -/
theorem claim10_witness :
    (Item.mk false [] [] none).poll_layout_change ⟨[]⟩ =
      .ok ([], Item.mk false [] [] none, ⟨[]⟩) :=
  claim10_no_layout_stream (Item.mk false [] [] none) ⟨[]⟩ rfl
